import Mathlib

/-!
Verification development for the libkuksa-cpp client SDK core:
the value/type model, the logical-to-physical type narrowing table,
the generic finite-state-machine engine, the connection-lifecycle FSM,
and the dual-loop client protocol logic (provider validation, actuation
dispatch, batch publish, subscriber initial-value fetch and backoff).

Shallow embedding conventions:
* C++ enums become Lean inductives with the same constructor names.
* `absl::Status` becomes a `Status` record of a code and a message.
* gRPC calls become explicit records of issued RPCs plus an environment
  function that supplies the broker's response.
* Machine integers are modelled as `Int`/`Nat`; where 32-bit overflow
  matters (the backoff computation) wrap-around is applied explicitly.
* Float payloads never participate in arithmetic in the modelled code,
  so they are carried as opaque bit patterns (`Nat`).
-/

namespace Kuksa

/-! ## Value and quality model

Modelled from the spec: the `vss::types` value model (tagged union over
scalars and homogeneous arrays plus an explicit empty variant, a quality
indicator, and a timestamp) ships outside this repository; only its usage
appears in the sources. -/

/-- Modelled from the spec: quality indicator of `vss::types::SignalQuality`. -/
inductive SignalQuality where
  | VALID
  | NOT_AVAILABLE
  | INVALID
  | STALE
  | UNKNOWN
deriving DecidableEq, Repr

/-- Modelled from the spec: `vss::types::Value`, a closed tagged union over
bool, int32, uint32, int64, uint64, float, double, string and their array
forms, plus an explicit empty variant (`std::monostate`). Float and double
payloads are opaque bit patterns. -/
inductive Value where
  | empty
  | boolV (b : Bool)
  | int32V (i : Int)
  | uint32V (n : Nat)
  | int64V (i : Int)
  | uint64V (n : Nat)
  | floatV (bits : Nat)
  | doubleV (bits : Nat)
  | stringV (s : String)
  | boolA (xs : List Bool)
  | int32A (xs : List Int)
  | uint32A (xs : List Nat)
  | int64A (xs : List Int)
  | uint64A (xs : List Nat)
  | floatA (xs : List Nat)
  | doubleA (xs : List Nat)
  | stringA (xs : List String)
deriving DecidableEq, Repr

/-- Modelled from the spec: `vss::types::is_empty` holds exactly on the
empty variant. -/
def is_empty : Value → Bool
  | .empty => true
  | _ => false

/-- Modelled from the spec: `vss::types::DynamicQualifiedValue`
`{ value, quality, timestamp }`. Timestamps are abstract ticks. -/
structure DynamicQualifiedValue where
  value : Value
  quality : SignalQuality
  timestamp : Nat
deriving DecidableEq, Repr

/-- Wire datapoint of the KUKSA v2 protocol: an optional timestamp and an
optional value (absence of the value field encodes NOT_AVAILABLE). -/
structure Datapoint where
  timestamp : Option Nat
  value : Option Value
deriving DecidableEq, Repr

/-- From `vss_client.cpp` `datapoint_to_qualified_value`: quality is
inferred from presence of the value field; a missing timestamp is replaced
by the current time `now`. -/
def datapoint_to_qualified_value (now : Nat) (dp : Datapoint) : DynamicQualifiedValue :=
  { timestamp := dp.timestamp.getD now
    value := match dp.value with
      | some v => v
      | none => .empty
    quality := match dp.value with
      | some _ => .VALID
      | none => .NOT_AVAILABLE }

/-- From `vss_client.cpp` `qualified_value_to_datapoint`: the value field is
set only when quality is VALID and the value is non-empty. -/
def qualified_value_to_datapoint (qv : DynamicQualifiedValue) : Datapoint :=
  { timestamp := some qv.timestamp
    value :=
      if qv.quality = .VALID ∧ is_empty qv.value = false then some qv.value else none }

/-! ## Logical value types and the narrowing table

The enum constructors mirror `vss::types::ValueType` as used by
`include/kuksa_cpp/type_mapping.hpp`: the wire-representable types plus the
four narrowing types (int8, int16, uint8, uint16) and their array forms. -/

/-- Logical value type tag (`vss::types::ValueType`), including the
narrowing types that have no wire representation of their own. -/
inductive ValueType where
  | STRING
  | BOOL
  | INT8
  | INT16
  | INT32
  | INT64
  | UINT8
  | UINT16
  | UINT32
  | UINT64
  | FLOAT
  | DOUBLE
  | STRING_ARRAY
  | BOOL_ARRAY
  | INT8_ARRAY
  | INT16_ARRAY
  | INT32_ARRAY
  | INT64_ARRAY
  | UINT8_ARRAY
  | UINT16_ARRAY
  | UINT32_ARRAY
  | UINT64_ARRAY
  | FLOAT_ARRAY
  | DOUBLE_ARRAY
deriving DecidableEq, Repr, Fintype

/-- From `type_mapping.hpp` `to_physical_value_type`: narrowing scalar and
array types widen to their physical representation; all other types map to
themselves. -/
def to_physical_value_type : ValueType → ValueType
  | .INT8 => .INT32
  | .INT16 => .INT32
  | .UINT8 => .UINT32
  | .UINT16 => .UINT32
  | .INT8_ARRAY => .INT32_ARRAY
  | .INT16_ARRAY => .INT32_ARRAY
  | .UINT8_ARRAY => .UINT32_ARRAY
  | .UINT16_ARRAY => .UINT32_ARRAY
  | t => t

/-- From `type_mapping.hpp` `are_physically_compatible`: equal, or the
logical type's physical widening equals the physical type. -/
def are_physically_compatible (logical physical : ValueType) : Bool :=
  logical = physical ∨ to_physical_value_type logical = physical

/-- From `types.hpp` `are_types_compatible`: equality, or one of the
float/double, int32/int64, uint32/uint64 widening pairs (both directions),
scalar and array forms. -/
def are_types_compatible (expected actual : ValueType) : Bool :=
  if expected = actual then true
  else if (expected = .FLOAT ∧ actual = .DOUBLE) ∨ (expected = .DOUBLE ∧ actual = .FLOAT) then true
  else if (expected = .INT32 ∧ actual = .INT64) ∨ (expected = .INT64 ∧ actual = .INT32) then true
  else if (expected = .UINT32 ∧ actual = .UINT64) ∨ (expected = .UINT64 ∧ actual = .UINT32) then true
  else if (expected = .FLOAT_ARRAY ∧ actual = .DOUBLE_ARRAY) ∨ (expected = .DOUBLE_ARRAY ∧ actual = .FLOAT_ARRAY) then true
  else if (expected = .INT32_ARRAY ∧ actual = .INT64_ARRAY) ∨ (expected = .INT64_ARRAY ∧ actual = .INT32_ARRAY) then true
  else if (expected = .UINT32_ARRAY ∧ actual = .UINT64_ARRAY) ∨ (expected = .UINT64_ARRAY ∧ actual = .UINT32_ARRAY) then true
  else false

/-- The fixed narrowing table of the spec: int8,int16 to int32; uint8,uint16
to uint32; element-wise for arrays (claim wording, for comparison). -/
def narrowing_pair (logical physical : ValueType) : Bool :=
  (logical = .INT8 ∧ physical = .INT32) ∨
  (logical = .INT16 ∧ physical = .INT32) ∨
  (logical = .UINT8 ∧ physical = .UINT32) ∨
  (logical = .UINT16 ∧ physical = .UINT32) ∨
  (logical = .INT8_ARRAY ∧ physical = .INT32_ARRAY) ∨
  (logical = .INT16_ARRAY ∧ physical = .INT32_ARRAY) ∨
  (logical = .UINT8_ARRAY ∧ physical = .UINT32_ARRAY) ∨
  (logical = .UINT16_ARRAY ∧ physical = .UINT32_ARRAY)

/-- The widening pairs named by the claim: float/double, int32/int64,
uint32/uint64 and their array forms, in either order (claim wording, for
comparison). -/
def widening_pair (a b : ValueType) : Bool :=
  ((a = .FLOAT ∧ b = .DOUBLE) ∨ (a = .DOUBLE ∧ b = .FLOAT)) ∨
  ((a = .INT32 ∧ b = .INT64) ∨ (a = .INT64 ∧ b = .INT32)) ∨
  ((a = .UINT32 ∧ b = .UINT64) ∨ (a = .UINT64 ∧ b = .UINT32)) ∨
  ((a = .FLOAT_ARRAY ∧ b = .DOUBLE_ARRAY) ∨ (a = .DOUBLE_ARRAY ∧ b = .FLOAT_ARRAY)) ∨
  ((a = .INT32_ARRAY ∧ b = .INT64_ARRAY) ∨ (a = .INT64_ARRAY ∧ b = .INT32_ARRAY)) ∨
  ((a = .UINT32_ARRAY ∧ b = .UINT64_ARRAY) ∨ (a = .UINT64_ARRAY ∧ b = .UINT32_ARRAY))

/-- Compatibility as the claim states it: equal, narrowing-related, or a
widening pair (claim wording, for comparison with the source predicate). -/
def claimed_compatible (logical physical : ValueType) : Bool :=
  logical = physical ∨ narrowing_pair logical physical ∨ widening_pair logical physical

/-! ## Status model (absl::Status) -/

/-- Status codes used by the client (subset of absl status codes). -/
inductive StatusCode where
  | ok
  | invalidArgument
  | failedPrecondition
  | unavailable
  | unknownCode
  | deadlineExceeded
  | notFound
deriving DecidableEq, Repr

/-- An `absl::Status`: a code plus a message. -/
structure Status where
  code : StatusCode
  message : String
deriving DecidableEq, Repr

def Status.isOk (s : Status) : Bool := s.code = .ok

def okStatus : Status := ⟨.ok, ""⟩

def invalidArgumentError (m : String) : Status := ⟨.invalidArgument, m⟩

def failedPreconditionError (m : String) : Status := ⟨.failedPrecondition, m⟩

def unavailableError (m : String) : Status := ⟨.unavailable, m⟩

def unknownError (m : String) : Status := ⟨.unknownCode, m⟩

def deadlineExceededError (m : String) : Status := ⟨.deadlineExceeded, m⟩

/-- Signal classification from `types.hpp` (`SignalClass`). -/
inductive SignalClass where
  | SENSOR
  | ACTUATOR
  | ATTRIBUTE
  | UNKNOWN
deriving DecidableEq, Repr

/-! ## Synchronous RPC paths (`vss_client.cpp`)

Unary RPCs are recorded explicitly; the broker side of each call is an
environment function supplying the response status. -/

/-- A unary RPC issued on the shared connection. -/
inductive RPC where
  | actuateRpc (signal_id : Int) (value : Value)
  | publishValueRpc (signal_id : Int) (dp : Datapoint)
deriving DecidableEq, Repr

/-- Broker responses to unary RPCs. -/
structure RpcEnv where
  actuateResult : Int → Value → Status
  publishResult : Int → Datapoint → Status
  getResult : Int → Option Datapoint

/-- From `VSSClientImpl::publish_impl`: the standalone PublishValue RPC;
fails with FailedPrecondition when no stub is connected. Returns the call
status and the list of RPCs issued. -/
def publish_impl (stub : Bool) (env : RpcEnv) (signal_id : Int)
    (qv : DynamicQualifiedValue) : Status × List RPC :=
  if stub = false then (failedPreconditionError "Not connected to databroker", [])
  else
    let dp := qualified_value_to_datapoint qv
    (env.publishResult signal_id dp, [.publishValueRpc signal_id dp])

/-- From `VSSClientImpl::actuate_signal`: the unary Actuate RPC carrying the
target value. -/
def actuate_signal (env : RpcEnv) (signal_id : Int) (value : Value) : Status × List RPC :=
  (env.actuateResult signal_id value, [.actuateRpc signal_id value])

/-- From `VSSClientImpl::set_impl`: reject non-VALID or empty input with
InvalidArgument before any RPC; route ACTUATOR writes to the Actuate RPC
and everything else to the publish path. -/
def set_impl (stub : Bool) (env : RpcEnv) (signal_id : Int)
    (qv : DynamicQualifiedValue) (signal_class : SignalClass) : Status × List RPC :=
  if stub = false then (failedPreconditionError "Not connected to databroker", [])
  else if qv.quality ≠ .VALID ∨ is_empty qv.value = true then
    (invalidArgumentError "Cannot set value with quality != VALID", [])
  else if signal_class = .ACTUATOR then actuate_signal env signal_id qv.value
  else publish_impl stub env signal_id qv

/-! ## Batch publish (`VSSClientImpl::publish_batch_impl`) -/

/-- Outcome of a batch publish: the returned status, the per-signal error
map, the argument passed to the callback (if one was supplied), and the
RPCs issued. -/
structure BatchResult where
  ret : Status
  errors : List (Int × Status)
  callback_arg : Option (List (Int × Status))
  rpcs : List RPC
deriving DecidableEq, Repr

/-- One iteration of the batch loop: publish the entry, record a failure in
the error map. -/
def publish_batch_step (stub : Bool) (env : RpcEnv)
    (acc : List (Int × Status) × List RPC) (entry : Int × DynamicQualifiedValue) :
    List (Int × Status) × List RPC :=
  let r := publish_impl stub env entry.1 entry.2
  (if r.1.isOk then acc.1 else acc.1 ++ [(entry.1, r.1)], acc.2 ++ r.2)

/-- From `VSSClientImpl::publish_batch_impl`: publish each value with the
standalone RPC, invoke the callback with the error map if provided, return
OK when the error map is empty and Unknown otherwise. -/
def publish_batch_impl (stub : Bool) (env : RpcEnv)
    (values : List (Int × DynamicQualifiedValue)) (has_callback : Bool) : BatchResult :=
  let folded := values.foldl (publish_batch_step stub env) ([], [])
  { ret := if folded.1 = [] then okStatus else unknownError "Some publishes failed"
    errors := folded.1
    callback_arg := if has_callback then some folded.1 else none
    rpcs := folded.2 }

/-- The per-entry error record of a batch entry, when its publish fails. -/
def batch_error_of (env : RpcEnv) (entry : Int × DynamicQualifiedValue) :
    Option (Int × Status) :=
  let st := env.publishResult entry.1 (qualified_value_to_datapoint entry.2)
  if st.isOk then none else some (entry.1, st)

/-- Demonstration broker environment: signal id 2 rejects publishes, all
other ids accept everything. -/
def env_batch_demo : RpcEnv where
  actuateResult := fun _ _ => okStatus
  publishResult := fun id _ => if id = 2 then unavailableError "unknown signal" else okStatus
  getResult := fun _ => none

/-- A VALID int32 qualified value used by concrete instances. -/
def qv_demo : DynamicQualifiedValue := { value := .int32V 1, quality := .VALID, timestamp := 5 }

/-! ## Generic finite state machine engine (`state_machine/state_machine.hpp`)

The engine keys transitions by (state, trigger); `add_transition` appends to
the bucket, so candidates within a bucket are kept in registration order.
Guards (`condition`) evaluate against an immutable context snapshot.
Entry/exit/action side effects do not influence the transition choice and
are omitted from the functional model. -/

/-- A transition candidate of `sdv::StateMachine`: source and target state,
trigger name, and an optional guard. -/
structure FsmTransition (σ : Type) (Ctx : Type) where
  from_state : σ
  to_state : σ
  trig : String
  condition : Option (Ctx → Bool)

/-- The state machine record: the current state plus every registered
transition in registration order (the C++ unordered_map groups them by
(state, trigger) key; within each bucket `push_back` preserves exactly the
registration order, which the filtered view below reproduces). -/
structure StateMachine (σ : Type) (Ctx : Type) where
  current_state : σ
  transitions : List (FsmTransition σ Ctx)

/-- `StateMachine::add_transition`: append a candidate to the
(from, trigger) bucket. -/
def StateMachine.add_transition {σ Ctx : Type} (sm : StateMachine σ Ctx)
    (from_state to_state : σ) (trig : String) (condition : Option (Ctx → Bool)) :
    StateMachine σ Ctx :=
  { sm with transitions := sm.transitions ++ [⟨from_state, to_state, trig, condition⟩] }

/-- The (current_state, event) bucket consulted by `execute_transition`. -/
def transition_bucket {σ Ctx : Type} [DecidableEq σ] (sm : StateMachine σ Ctx)
    (event : String) : List (FsmTransition σ Ctx) :=
  sm.transitions.filter
    (fun tr => decide (tr.from_state = sm.current_state) && decide (tr.trig = event))

/-- Guard evaluation: a guardless transition always passes. -/
def condition_passes {σ Ctx : Type} (ctx : Ctx) (tr : FsmTransition σ Ctx) : Bool :=
  match tr.condition with
  | none => true
  | some c => c ctx

/-- `StateMachine::execute_transition`: look up the bucket for
(current_state, event); the first candidate whose guard passes fires and
the machine moves to its target state (returning true); if the bucket is
absent or every guard fails, return false and leave the state unchanged. -/
def execute_transition {σ Ctx : Type} [DecidableEq σ] (sm : StateMachine σ Ctx)
    (event : String) (ctx : Ctx) : Bool × StateMachine σ Ctx :=
  match (transition_bucket sm event).find? (condition_passes ctx) with
  | some tr => (true, { sm with current_state := tr.to_state })
  | none => (false, sm)

/-- Demonstration guard-priority machine: two transitions share the
(0, "go") bucket; the first has a false guard, the second a true guard. -/
def demo_t1 : FsmTransition Nat Unit := ⟨0, 1, "go", some (fun _ => false)⟩

/-- Second demo transition, registered after `demo_t1`. -/
def demo_t2 : FsmTransition Nat Unit := ⟨0, 2, "go", some (fun _ => true)⟩

/-- The demo machine built through `add_transition`. -/
def demo_sm : StateMachine Nat Unit :=
  ((StateMachine.mk 0 []).add_transition 0 1 "go" (some (fun _ => false))).add_transition
    0 2 "go" (some (fun _ => true))

/-! ## Connection lifecycle FSM (`connection_state_machine.hpp`) -/

/-- `ConnectionState` of `connection_state_machine.hpp`. -/
inductive ConnectionState where
  | DISCONNECTED
  | CONNECTING
  | ESTABLISHING
  | ACTIVE
  | FAILED
deriving DecidableEq, Repr

/-- The transition table registered by
`DatabrokerConnectionStateMachine::init_state_machine`, in registration
order (seven named edges, then a stop edge from each non-DISCONNECTED
state). All transitions are guardless. -/
def conn_transitions : List (FsmTransition ConnectionState Unit) :=
  [⟨.DISCONNECTED, .CONNECTING, "start", none⟩,
   ⟨.CONNECTING, .ESTABLISHING, "channel_ready", none⟩,
   ⟨.CONNECTING, .FAILED, "connect_failed", none⟩,
   ⟨.ESTABLISHING, .ACTIVE, "stream_ready", none⟩,
   ⟨.ESTABLISHING, .FAILED, "stream_failed", none⟩,
   ⟨.ACTIVE, .FAILED, "stream_ended", none⟩,
   ⟨.FAILED, .CONNECTING, "retry", none⟩,
   ⟨.CONNECTING, .DISCONNECTED, "stop", none⟩,
   ⟨.ESTABLISHING, .DISCONNECTED, "stop", none⟩,
   ⟨.ACTIVE, .DISCONNECTED, "stop", none⟩,
   ⟨.FAILED, .DISCONNECTED, "stop", none⟩]

/-- A `DatabrokerConnectionStateMachine`: the wrapped engine instance plus
the `last_error_` side channel (the `is_connection_error_` flag only feeds
retry policy one layer up and is not modelled). -/
structure ConnSM where
  sm : StateMachine ConnectionState Unit
  last_error : Status

/-- Freshly constructed connection machine: DISCONNECTED with an OK
`last_error_`. -/
def conn_init : ConnSM := ⟨⟨.DISCONNECTED, conn_transitions⟩, okStatus⟩

/-- The eight `trigger_*` entry points of the connection machine, with the
status payloads their C++ signatures carry. -/
inductive ConnEvent where
  | start
  | channel_ready
  | connect_failed (e : Status)
  | stream_ready
  | stream_failed (e : Status) (is_connection_error : Bool)
  | stream_ended (e : Status)
  | retry
  | stop

/-- Trigger string passed to the engine by each `trigger_*` wrapper. -/
def conn_event_name : ConnEvent → String
  | .start => "start"
  | .channel_ready => "channel_ready"
  | .connect_failed _ => "connect_failed"
  | .stream_ready => "stream_ready"
  | .stream_failed _ _ => "stream_failed"
  | .stream_ended _ => "stream_ended"
  | .retry => "retry"
  | .stop => "stop"

/-- `DatabrokerConnectionStateMachine::record_error`. -/
def record_error (c : ConnSM) (e : Status) : ConnSM := { c with last_error := e }

/-- Run the engine on a trigger string, keeping the error side channel. -/
def conn_step (c : ConnSM) (event : String) : ConnSM :=
  { c with sm := (execute_transition c.sm event ()).2 }

/-- The `trigger_*` wrappers: failure triggers record their error first,
`trigger_stream_ready` clears the error first, then the engine runs. -/
def conn_trigger : ConnSM → ConnEvent → ConnSM
  | c, .start => conn_step c "start"
  | c, .channel_ready => conn_step c "channel_ready"
  | c, .connect_failed e => conn_step (record_error c e) "connect_failed"
  | c, .stream_ready => conn_step { c with last_error := okStatus } "stream_ready"
  | c, .stream_failed e _ => conn_step (record_error c e) "stream_failed"
  | c, .stream_ended e => conn_step (record_error c e) "stream_ended"
  | c, .retry => conn_step c "retry"
  | c, .stop => conn_step c "stop"

/-- The `last_error_` value after a `trigger_*` call, given the previous
value: failure triggers overwrite it, `trigger_stream_ready` clears it,
the rest leave it alone. -/
def conn_event_error : ConnEvent → Status → Status
  | .connect_failed e, _ => e
  | .stream_failed e _, _ => e
  | .stream_ended e, _ => e
  | .stream_ready, _ => okStatus
  | _, prev => prev

/-- `DatabrokerConnectionStateMachine::status`. -/
def conn_status (client_name establishing_name : String) (c : ConnSM) : Status :=
  match c.sm.current_state with
  | .DISCONNECTED => failedPreconditionError (client_name ++ " not started")
  | .CONNECTING => unavailableError "Connecting to databroker..."
  | .ESTABLISHING => unavailableError (establishing_name ++ " in progress...")
  | .ACTIVE => okStatus
  | .FAILED => c.last_error

/-- Whether an event fires a transition from the given configuration. -/
def conn_event_fires (c : ConnSM) (ev : ConnEvent) : Bool :=
  (execute_transition c.sm (conn_event_name ev) ()).1

/-- The fired-transition relation of the fresh machine as a function:
the new state when the event fires, none when it is ignored. -/
def conn_fire_result (st : ConnectionState) (ev : ConnEvent) : Option ConnectionState :=
  let r := execute_transition (StateMachine.mk st conn_transitions) (conn_event_name ev) ()
  if r.1 then some r.2.current_state else none

/-- The transition table exactly as the claim states it (claim wording,
for comparison with the engine-driven machine). -/
def claimed_conn_edge : ConnectionState → ConnEvent → Option ConnectionState
  | .DISCONNECTED, .start => some .CONNECTING
  | .CONNECTING, .channel_ready => some .ESTABLISHING
  | .CONNECTING, .connect_failed _ => some .FAILED
  | .ESTABLISHING, .stream_ready => some .ACTIVE
  | .ESTABLISHING, .stream_failed _ _ => some .FAILED
  | .ACTIVE, .stream_ended _ => some .FAILED
  | .FAILED, .retry => some .CONNECTING
  | .CONNECTING, .stop => some .DISCONNECTED
  | .ESTABLISHING, .stop => some .DISCONNECTED
  | .ACTIVE, .stop => some .DISCONNECTED
  | .FAILED, .stop => some .DISCONNECTED
  | _, _ => none

/-- The failure triggers carry the non-OK status their call sites pass
(every call site passes an Unavailable, InvalidArgument or
FailedPrecondition error). -/
def conn_event_wellformed : ConnEvent → Prop
  | .connect_failed e => e.isOk = false
  | .stream_failed e _ => e.isOk = false
  | .stream_ended e => e.isOk = false
  | _ => True

/-- Configurations reachable from the fresh machine through fired,
well-formed triggers. -/
inductive ConnReachable : ConnSM → Prop where
  | init : ConnReachable conn_init
  | step {c : ConnSM} (ev : ConnEvent) (hev : conn_event_wellformed ev)
      (hfires : conn_event_fires c ev = true) :
      ConnReachable c → ConnReachable (conn_trigger c ev)

/-- A concrete reachable FAILED configuration: start, then a failed
connection attempt. -/
def demo_failed_conn : ConnSM :=
  conn_trigger (conn_trigger conn_init .start)
    (.connect_failed (unavailableError "connection refused"))

/-! ## Provider loop (`VSSClientImpl::provider_loop`)

The loop runs once on its own thread; `running_` is true throughout the
modelled run (a concurrent `stop()` is a separate scenario outside these
claims). Handlers are identified by opaque tokens; an invocation is
recorded as (handler token, decoded value). -/

/-- `VSSClientImpl::ActuatorRegistration` (the closure is an opaque
token). -/
structure ActuatorRegistration where
  path : String
  signal_id : Int
  type : ValueType
  handler : Nat
deriving DecidableEq, Repr

/-- `VSSClientImpl::SignalMetadata` as returned by
`query_signal_metadata`: id is -1 when the path is unresolvable. -/
structure SignalMetadata where
  id : Int
  type : Option ValueType
deriving DecidableEq, Repr

/-- One pass of the validation loop body (vss_client.cpp:551-578): the
error recorded for a registration, if any. -/
def validate_actuator (meta : String → SignalMetadata)
    (handler : ActuatorRegistration) : Option String :=
  let m := meta handler.path
  if m.id ≤ 0 then some (handler.path ++ ": Signal not found in VSS")
  else if m.id ≠ handler.signal_id then some (handler.path ++ ": Signal ID mismatch")
  else
    match m.type with
    | none => some (handler.path ++ ": No type metadata")
    | some t =>
        if are_types_compatible handler.type t = false then
          some (handler.path ++ ": Type mismatch")
        else none

/-- The collected validation errors, in registration order. -/
def validate_errors (regs : List ActuatorRegistration)
    (meta : String → SignalMetadata) : List String :=
  regs.filterMap (validate_actuator meta)

/-- Messages the provider stream can deliver: the claim confirmation, or an
actuation batch of (signal_id, target value) entries. -/
inductive ProviderEvent where
  | provide_actuation_response
  | batch_actuate (reqs : List (Int × Value))

/-- The broker-side environment one provider-loop run interacts with. -/
structure ProviderEnv where
  metadata : String → SignalMetadata
  stream_opens : Bool
  claim_write_ok : Bool
  events : List ProviderEvent
  finish_cancelled : Bool

/-- Outcome of one provider-loop run: the final connection machine, the
sequence of FSM states observed after each trigger call, the handler
invocations in dispatch order, and whether the duplex stream was opened. -/
structure ProviderResult where
  conn : ConnSM
  visited : List ConnectionState
  invoked : List (Nat × Value)
  stream_opened : Bool

/-- Run one trigger and log the state the machine is in afterwards. -/
def trigger_and_log (acc : ConnSM × List ConnectionState) (ev : ConnEvent) :
    ConnSM × List ConnectionState :=
  let c := conn_trigger acc.1 ev
  (c, acc.2 ++ [c.sm.current_state])

/-- `VSSClientImpl::handle_actuation_request`: for each entry the first
registration with a matching signal id is invoked; unknown ids are logged
and skipped. -/
def handle_actuation_request (regs : List ActuatorRegistration)
    (reqs : List (Int × Value)) : List (Nat × Value) :=
  reqs.filterMap (fun rv =>
    match regs.find? (fun h => h.signal_id == rv.1) with
    | some h => some (h.handler, rv.2)
    | none => none)

/-- One iteration of the provider read loop (vss_client.cpp:635-645). -/
def provider_read_step (regs : List ActuatorRegistration)
    (acc : (ConnSM × List ConnectionState) × Bool × List (Nat × Value))
    (ev : ProviderEvent) : (ConnSM × List ConnectionState) × Bool × List (Nat × Value) :=
  match ev with
  | .provide_actuation_response =>
      if acc.2.1 = false then (trigger_and_log acc.1 .stream_ready, true, acc.2.2)
      else acc
  | .batch_actuate reqs =>
      (acc.1, acc.2.1, acc.2.2 ++ handle_actuation_request regs reqs)

/-- `VSSClientImpl::provider_loop` (vss_client.cpp:543-656): start, validate
every registration (failing the whole run on any error, before the stream is
opened), then open the stream, send the claim, dispatch actuation batches,
and translate the stream end into a trigger. -/
def provider_loop (env : ProviderEnv) (regs : List ActuatorRegistration) : ProviderResult :=
  let s0 := trigger_and_log (conn_init, [ConnectionState.DISCONNECTED]) .start
  let errors := validate_errors regs env.metadata
  if errors = [] then
    let s1 := trigger_and_log s0 .channel_ready
    if env.stream_opens = false then
      let s2 := trigger_and_log s1 (.stream_failed (unavailableError "Failed to open stream") true)
      let s3 := trigger_and_log s2 .stop
      ⟨s3.1, s3.2, [], false⟩
    else if regs.isEmpty = false ∧ env.claim_write_ok = false then
      let s2 := trigger_and_log s1 (.stream_failed (unavailableError "Write failed") true)
      let s3 := trigger_and_log s2 .stop
      ⟨s3.1, s3.2, [], true⟩
    else
      let s2 := if regs.isEmpty then trigger_and_log s1 .stream_ready else s1
      let folded := env.events.foldl (provider_read_step regs) (s2, regs.isEmpty, [])
      let sEnd :=
        if env.finish_cancelled = false then
          trigger_and_log folded.1 (.stream_ended (unavailableError "Provider stream ended"))
        else trigger_and_log folded.1 .stop
      ⟨sEnd.1, sEnd.2, folded.2.2, true⟩
  else
    let s1 := trigger_and_log s0
      (.stream_failed
        (invalidArgumentError
          ("Actuator validation failed:" ++ String.intercalate "\n" errors)) false)
    let s2 := trigger_and_log s1 .stop
    ⟨s2.1, s2.2, [], false⟩

/-- Metadata environment of the concrete validation-failure scenario. -/
def demo_meta : String → SignalMetadata := fun p =>
  if p = "Test.Good" then ⟨7, some .INT32⟩
  else if p = "Test.Bad" then ⟨8, some .INT32⟩
  else ⟨-1, none⟩

/-- Two registered actuators: a valid one and one whose captured id (9)
disagrees with the broker's id (8). -/
def demo_regs : List ActuatorRegistration :=
  [⟨"Test.Good", 7, .INT32, 0⟩, ⟨"Test.Bad", 9, .INT32, 1⟩]

/-- A run in which the broker would confirm the claim and then request an
actuation of the valid actuator. -/
def demo_provider_env : ProviderEnv :=
  ⟨demo_meta, true, true,
    [.provide_actuation_response, .batch_actuate [(7, .boolV true)]], false⟩

/-! ## Subscriber loop: one connection attempt (`VSSClientImpl::subscriber_loop`) -/

/-- Broker side of one subscriber connection attempt: the GetValue response
per signal id (none models a failed call), and the successful stream reads,
each carrying a batch of (signal_id, datapoint) entries. -/
structure SubscriberEnv where
  get_value : Int → Option Datapoint
  reads : List (List (Int × Datapoint))

/-- `VSSClientImpl::get_current_value`: the unary GetValue call. -/
def get_current_value (env : SubscriberEnv) (signal_id : Int) : Option Datapoint :=
  env.get_value signal_id

/-- The body of the initial-value collection loop
(vss_client.cpp:781-787): keep the fetched datapoint only when the call
succeeded and the result carries a timestamp. -/
def fetch_keep (env : SubscriberEnv) (signal_id : Int) : Option (Int × Datapoint) :=
  match get_current_value env signal_id with
  | some dp => if dp.timestamp.isSome then some (signal_id, dp) else none
  | none => none

/-- `VSSClientImpl::fetch_initial_values` (vss_client.cpp:777-795): for
every subscribed id issue GetValue; keep only results that arrived and
carry a timestamp, in subscription order. -/
def fetch_initial_values (subs : List Int) (env : SubscriberEnv) :
    List (Int × Datapoint) :=
  subs.filterMap (fetch_keep env)

/-- `VSSClientImpl::handle_subscription_update`: look the id up in the
subscription map; ids with no callback are silently dropped; otherwise the
callback receives the converted datapoint. The dispatch is recorded as
(signal_id, qualified value). -/
def handle_subscription_update (subs : List Int) (now : Nat)
    (entry : Int × Datapoint) : Option (Int × DynamicQualifiedValue) :=
  if entry.1 ∈ subs then some (entry.1, datapoint_to_qualified_value now entry.2)
  else none

/-- The callback dispatch trace of one connection attempt: the initial
values are dispatched through `handle_subscription_update` before the read
loop dispatches any streamed entry (vss_client.cpp:740-763). -/
def subscriber_attempt_trace (subs : List Int) (env : SubscriberEnv) (now : Nat) :
    List (Int × DynamicQualifiedValue) :=
  (fetch_initial_values subs env).filterMap (handle_subscription_update subs now) ++
    env.reads.flatten.filterMap (handle_subscription_update subs now)

/-- A subscription whose stored value has no timestamp: the GetValue result
exists but is skipped by the initial-value filter, and a streamed update
follows. -/
def demo_sub_env : SubscriberEnv :=
  ⟨fun signal_id => if signal_id = 7 then some ⟨none, some (.int32V 5)⟩ else none,
   [[(7, ⟨some 11, some (.int32V 6)⟩)]]⟩

/-- A subscription whose stored value is absent but timestamped (broker
answers NOT_AVAILABLE), followed by a streamed update. -/
def demo_sub_env2 : SubscriberEnv :=
  ⟨fun signal_id => if signal_id = 5 then some ⟨some 3, none⟩ else none,
   [[(5, ⟨some 12, some (.boolV true)⟩)]]⟩

/-! ## Subscriber retry backoff (`VSSClientImpl::subscriber_loop`,
vss_client.cpp:700-716 and 753-762) -/

/-- Two's-complement wrap-around of a 32-bit signed int. -/
def int32_wrap (x : Int) : Int := (x + 2 ^ 31) % 2 ^ 32 - 2 ^ 31

/-- `MAX_RETRY_DELAY_MS` of the subscriber loop. -/
def MAX_RETRY_DELAY_MS : Int := 30000

/-- The C computation `std::min(100 * (1 << (retry_attempt - 1)),
MAX_RETRY_DELAY_MS)` with 32-bit int semantics: the shift and the
multiplication wrap around (shift counts stay below 32 for every attempt
considered here). -/
def backoff_delay_ms (retry_attempt : Nat) : Int :=
  min (int32_wrap (100 * int32_wrap (2 ^ (retry_attempt - 1)))) MAX_RETRY_DELAY_MS

/-- The backoff delay as the claim states it:
min(100 * 2^(n-1), 30000) milliseconds (claim wording, for comparison). -/
def claimed_delay_ms (n : Nat) : Int := min (100 * 2 ^ (n - 1)) 30000

/-- The events of one subscriber-loop iteration that touch the retry
counter. -/
inductive SubLoopEvent where
  | read_ok
  | connect_timeout
  | fetch_failed
  | stream_end

/-- The retry counter dynamics: reset to zero on every successful stream
read, incremented by every failure. -/
def retry_counter_step (n : Nat) : SubLoopEvent → Nat
  | .read_ok => 0
  | .connect_timeout => n + 1
  | .fetch_failed => n + 1
  | .stream_end => n + 1

/-! ## Registration methods on a running client -/

/-- The registration-relevant state of `VSSClientImpl`: the `running_`
flag, the registered-actuator list, and the subscription map
(callbacks are opaque tokens). -/
structure ClientRegState where
  running : Bool
  actuator_handlers : List ActuatorRegistration
  subscriptions : List (Int × Nat)
deriving DecidableEq, Repr

/-- Insert-or-assign semantics of `std::map::operator[]`. -/
def map_insert (m : List (Int × Nat)) (k : Int) (v : Nat) : List (Int × Nat) :=
  if m.any (fun e => e.1 == k) then m.map (fun e => if e.1 == k then (k, v) else e)
  else m ++ [(k, v)]

/-- `VSSClientImpl::serve_actuator_impl` (vss_client.cpp:253-265): rejected
with FailedPrecondition while running, otherwise appended to the
registered-actuator list. -/
def serve_actuator_impl (st : ClientRegState) (path : String) (signal_id : Int)
    (t : ValueType) (handler : Nat) : Status × ClientRegState :=
  if st.running then
    (failedPreconditionError "Cannot serve actuator while client is running", st)
  else
    (okStatus,
      { st with actuator_handlers := st.actuator_handlers ++ [⟨path, signal_id, t, handler⟩] })

/-- `VSSClientImpl::subscribe_impl` (vss_client.cpp:271-279): no check of
`running_`, no status return; the callback is stored unconditionally. -/
def subscribe_impl (st : ClientRegState) (signal_id : Int) (callback : Nat) :
    ClientRegState :=
  { st with subscriptions := map_insert st.subscriptions signal_id callback }

/-- A running client with empty registration state. -/
def demo_running_client : ClientRegState := ⟨true, [], []⟩

end Kuksa

namespace Kuksa

/-- C3 counterexample: the claim declares the widening pair (FLOAT, DOUBLE)
compatible, but `are_physically_compatible` rejects it (only equality and
the narrowing table are accepted); likewise for (INT32, INT64). -/
theorem C3_counterexample :
    claimed_compatible .FLOAT .DOUBLE = true ∧
    are_physically_compatible .FLOAT .DOUBLE = false ∧
    claimed_compatible .INT32 .INT64 = true ∧
    are_physically_compatible .INT32 .INT64 = false := by decide

/-- C3 (amended): `are_physically_compatible logical physical` returns true
if and only if the two types are equal or related by the fixed narrowing
table (int8,int16 to int32; uint8,uint16 to uint32; element-wise for
arrays); the widening pairs float/double, int32/int64, uint32/uint64 are
not accepted. In particular (INT8, INT32) is compatible while (INT8, INT64)
and (BOOL, INT32) are not. -/
theorem C3_are_physically_compatible_iff :
    (∀ logical physical : ValueType,
      are_physically_compatible logical physical = true ↔
        (logical = physical ∨ narrowing_pair logical physical = true)) ∧
    are_physically_compatible .INT8 .INT32 = true ∧
    are_physically_compatible .INT8 .INT64 = false ∧
    are_physically_compatible .BOOL .INT32 = false := by
  refine ⟨?_, by decide, by decide, by decide⟩
  decide

/-- Unfolding the batch fold: the error map collects exactly the failing
entries in order, and one PublishValue RPC is issued per entry. -/
theorem publish_batch_foldl_eq (env : RpcEnv)
    (values : List (Int × DynamicQualifiedValue)) (acc : List (Int × Status) × List RPC) :
    values.foldl (publish_batch_step true env) acc =
      (acc.1 ++ values.filterMap (batch_error_of env),
       acc.2 ++ values.map (fun e => RPC.publishValueRpc e.1 (qualified_value_to_datapoint e.2))) := by
  induction values generalizing acc with
  | nil => simp
  | cons e es ih =>
    simp only [List.foldl_cons, List.filterMap_cons, List.map_cons, ih]
    unfold publish_batch_step publish_impl batch_error_of
    by_cases h : (env.publishResult e.1 (qualified_value_to_datapoint e.2)).isOk
    · simp [h]
    · simp [h]

/-- C1 (amended): publish_batch issues one independent PublishValue RPC per
entry, invokes the supplied callback with a map containing exactly the
signal ids whose individual publish failed (each mapped to its error), and
returns OK exactly when every per-signal publish succeeded; on any
per-signal failure the request itself returns Unknown rather than
success. -/
theorem C1_publish_batch_behavior (env : RpcEnv)
    (values : List (Int × DynamicQualifiedValue)) (has_callback : Bool) :
    ((publish_batch_impl true env values has_callback).rpcs =
        values.map (fun e => RPC.publishValueRpc e.1 (qualified_value_to_datapoint e.2))) ∧
    ((publish_batch_impl true env values has_callback).errors =
        values.filterMap (batch_error_of env)) ∧
    ((publish_batch_impl true env values has_callback).callback_arg =
        if has_callback then some (publish_batch_impl true env values has_callback).errors
        else none) ∧
    (∀ id st, (id, st) ∈ (publish_batch_impl true env values has_callback).errors ↔
        ∃ qv, (id, qv) ∈ values ∧
          st = env.publishResult id (qualified_value_to_datapoint qv) ∧ st.isOk = false) ∧
    ((publish_batch_impl true env values has_callback).ret.isOk = true ↔
        (publish_batch_impl true env values has_callback).errors = []) := by
  have hfold := publish_batch_foldl_eq env values ([], [])
  simp only [List.nil_append] at hfold
  refine ⟨?_, ?_, ?_, ?_, ?_⟩
  · simp [publish_batch_impl, hfold]
  · simp [publish_batch_impl, hfold]
  · simp [publish_batch_impl, hfold]
  · intro id st
    simp only [publish_batch_impl, hfold, List.mem_filterMap]
    constructor
    · rintro ⟨⟨a, qv⟩, hmem, hsome⟩
      unfold batch_error_of at hsome
      by_cases h : (env.publishResult a (qualified_value_to_datapoint qv)).isOk
      · simp [h] at hsome
      · simp [h] at hsome
        obtain ⟨ha, hst⟩ := hsome
        subst ha
        exact ⟨qv, hmem, hst.symm, by rw [← hst]; simpa using h⟩
    · rintro ⟨qv, hmem, hst, hnok⟩
      refine ⟨(id, qv), hmem, ?_⟩
      unfold batch_error_of
      simp [← hst, hnok]
  · by_cases h : values.filterMap (batch_error_of env) = [] <;>
      simp [publish_batch_impl, hfold, h, okStatus, unknownError, Status.isOk]

/-- C1 counterexample: publishing `[valid_id, invalid_id]` makes the
request itself return Unknown, not success, while the callback map is
exactly the failing id with its error. -/
theorem C1_counterexample :
    (publish_batch_impl true env_batch_demo [(1, qv_demo), (2, qv_demo)] true).ret.isOk = false ∧
    (publish_batch_impl true env_batch_demo [(1, qv_demo), (2, qv_demo)] true).ret =
      unknownError "Some publishes failed" ∧
    (publish_batch_impl true env_batch_demo [(1, qv_demo), (2, qv_demo)] true).callback_arg =
      some [(2, unavailableError "unknown signal")] := by
  refine ⟨rfl, rfl, rfl⟩

/-- C9: synchronous set on a connected client rejects any non-VALID input
with InvalidArgument without issuing an RPC; for VALID (and, per the data
model invariant, non-empty) input it routes ACTUATOR handles to the unary
Actuate RPC and every other signal class to the same publish path used by
publish(). -/
theorem C9_set_routing (env : RpcEnv) (signal_id : Int)
    (qv : DynamicQualifiedValue) (signal_class : SignalClass) :
    (qv.quality ≠ .VALID →
      set_impl true env signal_id qv signal_class =
        (invalidArgumentError "Cannot set value with quality != VALID", [])) ∧
    (qv.quality = .VALID → is_empty qv.value = false →
      (signal_class = .ACTUATOR →
        set_impl true env signal_id qv signal_class =
          (env.actuateResult signal_id qv.value, [RPC.actuateRpc signal_id qv.value])) ∧
      (signal_class ≠ .ACTUATOR →
        set_impl true env signal_id qv signal_class = publish_impl true env signal_id qv ∧
        (set_impl true env signal_id qv signal_class).2 =
          [RPC.publishValueRpc signal_id (qualified_value_to_datapoint qv)])) := by
  constructor
  · intro h
    simp [set_impl, h]
  · intro hq he
    constructor
    · intro hc
      simp [set_impl, hq, he, hc, actuate_signal]
    · intro hc
      refine ⟨by simp [set_impl, hq, he, hc], ?_⟩
      simp [set_impl, publish_impl, hq, he, hc]

/-- C9 witness: concrete instances of each routing branch. -/
theorem C9_witness :
    set_impl true env_batch_demo 3 ⟨.empty, .NOT_AVAILABLE, 0⟩ .ACTUATOR =
      (invalidArgumentError "Cannot set value with quality != VALID", []) ∧
    set_impl true env_batch_demo 3 ⟨.int32V 42, .VALID, 0⟩ .ACTUATOR =
      (env_batch_demo.actuateResult 3 (.int32V 42), [RPC.actuateRpc 3 (.int32V 42)]) ∧
    set_impl true env_batch_demo 3 ⟨.int32V 42, .VALID, 0⟩ .SENSOR =
      publish_impl true env_batch_demo 3 ⟨.int32V 42, .VALID, 0⟩ :=
  ⟨(C9_set_routing env_batch_demo 3 ⟨.empty, .NOT_AVAILABLE, 0⟩ .ACTUATOR).1 (by decide),
   ((C9_set_routing env_batch_demo 3 ⟨.int32V 42, .VALID, 0⟩ .ACTUATOR).2 rfl rfl).1 rfl,
   (((C9_set_routing env_batch_demo 3 ⟨.int32V 42, .VALID, 0⟩ .SENSOR).2 rfl rfl).2
      (by decide)).1⟩

/-- C10: a VALID qualified value whose payload is the empty variant is also
rejected with InvalidArgument and no RPC is issued: the emptiness check
makes the downstream send-path unreachable for valueless VALID inputs. -/
theorem C10_set_rejects_valueless_valid (env : RpcEnv) (signal_id : Int)
    (qv : DynamicQualifiedValue) (signal_class : SignalClass)
    (hq : qv.quality = .VALID) (he : is_empty qv.value = true) :
    set_impl true env signal_id qv signal_class =
      (invalidArgumentError "Cannot set value with quality != VALID", []) := by
  simp [set_impl, hq, he]

/-- C10 witness: the VALID-but-empty input at a concrete handle. -/
theorem C10_witness :
    set_impl true env_batch_demo 3 ⟨.empty, .VALID, 0⟩ .SENSOR =
      (invalidArgumentError "Cannot set value with quality != VALID", []) :=
  C10_set_rejects_valueless_valid env_batch_demo 3 ⟨.empty, .VALID, 0⟩ .SENSOR rfl rfl

/-- `find?` returns the head of the first match: everything before it
fails the predicate. -/
theorem find?_first_of_prefix_fails {α : Type} (p : α → Bool) (l1 l2 : List α) (a : α)
    (h1 : ∀ x ∈ l1, p x = false) (h2 : p a = true) :
    (l1 ++ a :: l2).find? p = some a := by
  induction l1 with
  | nil => simp [List.find?, h2]
  | cons b bs ih =>
    have hb : p b = false := h1 b (by simp)
    simpa [List.find?, hb] using ih (fun x hx => h1 x (by simp [hx]))

/-- C5: transitions are looked up by (current_state, trigger); candidates
in that bucket are evaluated in registration order and exactly the first
one whose guard passes (guardless transitions always pass) fires, moving
the machine to its target and returning true; if the bucket is absent or
every guard fails, trigger returns false and the state is unchanged. -/
theorem C5_trigger_first_match {σ Ctx : Type} [DecidableEq σ]
    (sm : StateMachine σ Ctx) (event : String) (ctx : Ctx) :
    ((execute_transition sm event ctx).1 = true ↔
      ∃ tr ∈ transition_bucket sm event, condition_passes ctx tr = true) ∧
    (∀ l1 tr l2, transition_bucket sm event = l1 ++ tr :: l2 →
      (∀ tr2 ∈ l1, condition_passes ctx tr2 = false) →
      condition_passes ctx tr = true →
      execute_transition sm event ctx = (true, { sm with current_state := tr.to_state })) ∧
    ((execute_transition sm event ctx).1 = false → (execute_transition sm event ctx).2 = sm) ∧
    (transition_bucket sm event = [] → execute_transition sm event ctx = (false, sm)) := by
  refine ⟨?_, ?_, ?_, ?_⟩
  · unfold execute_transition
    cases hfind : (transition_bucket sm event).find? (condition_passes ctx) with
    | none =>
      simp only [List.find?_eq_none] at hfind
      constructor
      · intro h
        exact absurd h (by simp)
      · rintro ⟨tr, hmem, hpass⟩
        exact absurd hpass (by simpa using hfind tr hmem)
    | some tr =>
      simp only [true_iff]
      exact ⟨tr, List.mem_of_find?_eq_some hfind, List.find?_some hfind⟩
  · intro l1 tr l2 hbucket h1 h2
    unfold execute_transition
    rw [hbucket, find?_first_of_prefix_fails (condition_passes ctx) l1 l2 tr h1 h2]
  · unfold execute_transition
    cases hfind : (transition_bucket sm event).find? (condition_passes ctx) <;> simp
  · intro hb
    unfold execute_transition
    rw [hb]
    simp [List.find?]

/-- C5 witness: the guard-priority machine fires the second-registered
transition of the shared bucket, the first having a false guard. -/
theorem C5_witness :
    execute_transition demo_sm "go" () = (true, { demo_sm with current_state := 2 }) :=
  (C5_trigger_first_match demo_sm "go" ()).2.1 [demo_t1] demo_t2 []
    (by rfl)
    (by
      intro tr2 h
      simp only [List.mem_singleton] at h
      subst h
      rfl)
    (by rfl)

/-- `execute_transition` never changes the registered transition list. -/
theorem execute_transition_transitions {σ Ctx : Type} [DecidableEq σ]
    (sm : StateMachine σ Ctx) (event : String) (ctx : Ctx) :
    ((execute_transition sm event ctx).2).transitions = sm.transitions := by
  unfold execute_transition
  cases (transition_bucket sm event).find? (condition_passes ctx) <;> rfl

/-- A trigger call on a configuration with the standard transition table
moves the state along the claimed edge (staying put when ignored) and
updates `last_error_` according to the event. -/
theorem conn_trigger_eq (c : ConnSM) (h : c.sm.transitions = conn_transitions)
    (ev : ConnEvent) :
    conn_trigger c ev =
      ⟨⟨(claimed_conn_edge c.sm.current_state ev).getD c.sm.current_state, conn_transitions⟩,
        conn_event_error ev c.last_error⟩ := by
  obtain ⟨st, hsm⟩ : ∃ st, c.sm = StateMachine.mk st conn_transitions :=
    ⟨c.sm.current_state, by rw [← h]⟩
  cases ev <;> simp only [conn_trigger, conn_step, record_error, hsm] <;> cases st <;> rfl

/-- An event fires on a standard-table configuration exactly when the
claimed table has an edge for it. -/
theorem conn_fires_iff (c : ConnSM) (h : c.sm.transitions = conn_transitions)
    (ev : ConnEvent) :
    conn_event_fires c ev = (claimed_conn_edge c.sm.current_state ev).isSome := by
  obtain ⟨st, hsm⟩ : ∃ st, c.sm = StateMachine.mk st conn_transitions :=
    ⟨c.sm.current_state, by rw [← h]⟩
  simp only [conn_event_fires, hsm]
  cases ev <;> cases st <;> rfl

/-- Reachability invariant: the transition table is never modified, and a
FAILED configuration always holds a non-OK recorded error. -/
theorem conn_reachable_invariant {c : ConnSM} (h : ConnReachable c) :
    c.sm.transitions = conn_transitions ∧
    (c.sm.current_state = .FAILED → c.last_error.isOk = false) := by
  induction h with
  | init => exact ⟨rfl, fun hF => by simp [conn_init] at hF⟩
  | @step c0 ev hev hfires hr ih =>
    obtain ⟨htrans, hfail⟩ := ih
    rw [conn_fires_iff c0 htrans ev] at hfires
    rw [conn_trigger_eq c0 htrans ev]
    refine ⟨rfl, ?_⟩
    intro hF
    simp only at hF
    cases ev <;> cases hstate : c0.sm.current_state <;> rw [hstate] at hF hfires <;>
      simp only [claimed_conn_edge, Option.getD, Option.isSome] at hF hfires <;>
      first
        | exact hev
        | exact absurd hF (by decide)
        | exact absurd hfires (by decide)

/-- C6: the connection lifecycle FSM starts in DISCONNECTED and admits
exactly the claimed transitions (start, channel_ready, connect_failed,
stream_ready, stream_failed, stream_ended, retry, plus stop from every
non-DISCONNECTED state); in every reachable configuration status() returns
the FailedPrecondition "not started" status in DISCONNECTED, an Unavailable
in-progress status in CONNECTING and ESTABLISHING, OK exactly in ACTIVE,
and the recorded last_error in FAILED. -/
theorem C6_connection_fsm (client_name establishing_name : String) :
    conn_init.sm.current_state = .DISCONNECTED ∧
    (∀ (st : ConnectionState) (ev : ConnEvent),
      conn_fire_result st ev = claimed_conn_edge st ev) ∧
    (∀ c : ConnSM, ConnReachable c →
      (c.sm.current_state = .DISCONNECTED →
        conn_status client_name establishing_name c =
          failedPreconditionError (client_name ++ " not started")) ∧
      (c.sm.current_state = .CONNECTING →
        conn_status client_name establishing_name c =
          unavailableError "Connecting to databroker...") ∧
      (c.sm.current_state = .ESTABLISHING →
        conn_status client_name establishing_name c =
          unavailableError (establishing_name ++ " in progress...")) ∧
      ((conn_status client_name establishing_name c).isOk = true ↔
        c.sm.current_state = .ACTIVE) ∧
      (c.sm.current_state = .FAILED →
        conn_status client_name establishing_name c = c.last_error)) := by
  refine ⟨rfl, ?_, ?_⟩
  · intro st ev
    cases st <;> cases ev <;> rfl
  · intro c hreach
    have hinv := conn_reachable_invariant hreach
    refine ⟨?_, ?_, ?_, ?_, ?_⟩ <;>
      cases hst : c.sm.current_state <;>
        simp_all [conn_status, okStatus, Status.isOk, failedPreconditionError,
          unavailableError]

/-- C6 witness: the start edge of the fresh machine, and the status contract
at the concrete reachable FAILED configuration reached by start followed by
a failed connection attempt. -/
theorem C6_witness :
    conn_fire_result .DISCONNECTED ConnEvent.start = some .CONNECTING ∧
    ((conn_status "Provider" "REGISTERING" demo_failed_conn).isOk = true ↔
      demo_failed_conn.sm.current_state = .ACTIVE) ∧
    (demo_failed_conn.sm.current_state = .FAILED →
      conn_status "Provider" "REGISTERING" demo_failed_conn = demo_failed_conn.last_error) := by
  have hreach : ConnReachable demo_failed_conn :=
    .step (.connect_failed (unavailableError "connection refused")) rfl (by decide)
      (.step .start trivial (by decide) .init)
  have h := C6_connection_fsm "Provider" "REGISTERING"
  exact ⟨h.2.1 .DISCONNECTED .start, (h.2.2 demo_failed_conn hreach).2.2.2.1,
    (h.2.2 demo_failed_conn hreach).2.2.2.2⟩

/-- Starting the fresh connection machine moves it to CONNECTING. -/
theorem conn_trigger_start_init :
    conn_trigger conn_init .start = ⟨⟨.CONNECTING, conn_transitions⟩, okStatus⟩ := rfl

/-- A stream_failed trigger in CONNECTING is ignored by the table (no such
edge) but still records the error. -/
theorem conn_trigger_stream_failed_connecting (e : Status) (b : Bool) (le : Status) :
    conn_trigger ⟨⟨.CONNECTING, conn_transitions⟩, le⟩ (.stream_failed e b) =
      ⟨⟨.CONNECTING, conn_transitions⟩, e⟩ := rfl

/-- A stop trigger in CONNECTING moves to DISCONNECTED. -/
theorem conn_trigger_stop_connecting (le : Status) :
    conn_trigger ⟨⟨.CONNECTING, conn_transitions⟩, le⟩ .stop =
      ⟨⟨.DISCONNECTED, conn_transitions⟩, le⟩ := rfl

/-- C2 (amended): if any registered actuator fails the validation pass, the
provider loop records the validation error and attempts a stream_failed
transition, but since validation happens while the FSM is in CONNECTING -
where no stream_failed edge exists - the trigger is ignored and the
subsequent stop moves the FSM to DISCONNECTED; it never enters FAILED. The
loop exits permanently without opening the stream and no actuation handler
is ever invoked, including handlers of actuators that validated
successfully. -/
theorem C2_validation_failure (env : ProviderEnv) (regs : List ActuatorRegistration)
    (h : validate_errors regs env.metadata ≠ []) :
    (provider_loop env regs).invoked = [] ∧
    (provider_loop env regs).stream_opened = false ∧
    (provider_loop env regs).conn.sm.current_state = .DISCONNECTED ∧
    ConnectionState.FAILED ∉ (provider_loop env regs).visited ∧
    (provider_loop env regs).conn.last_error.code = .invalidArgument ∧
    (provider_loop env regs).visited =
      [.DISCONNECTED, .CONNECTING, .CONNECTING, .DISCONNECTED] := by
  simp only [provider_loop, if_neg h, trigger_and_log, conn_trigger_start_init,
    conn_trigger_stream_failed_connecting, conn_trigger_stop_connecting]
  refine ⟨?_, ?_, ?_, ?_, ?_, ?_⟩ <;> trivial

/-- C2 counterexample: with one valid and one id-mismatched actuator the
claim predicts a FAILED provider FSM; the run never enters FAILED (it ends
DISCONNECTED via the ignored stream_failed and the stop), while - as the
claim also states - no handler ever runs despite a pending actuation
request for the valid actuator. -/
theorem C2_counterexample :
    (provider_loop demo_provider_env demo_regs).invoked = [] ∧
    ConnectionState.FAILED ∉ (provider_loop demo_provider_env demo_regs).visited ∧
    (provider_loop demo_provider_env demo_regs).conn.sm.current_state = .DISCONNECTED ∧
    (provider_loop demo_provider_env demo_regs).conn.last_error.code = .invalidArgument := by
  refine ⟨rfl, by decide, rfl, rfl⟩

/-- C2 witness: the amended theorem applied to the concrete mismatch
scenario. -/
theorem C2_witness :
    validate_errors demo_regs demo_provider_env.metadata ≠ [] ∧
    (provider_loop demo_provider_env demo_regs).invoked = [] ∧
    (provider_loop demo_provider_env demo_regs).stream_opened = false :=
  ⟨by decide,
   (C2_validation_failure demo_provider_env demo_regs (by decide)).1,
   (C2_validation_failure demo_provider_env demo_regs (by decide)).2.1⟩

/-- Characterization of the initial-value filter. -/
theorem fetch_keep_eq_some {env : SubscriberEnv} {signal_id : Int} {e : Int × Datapoint} :
    fetch_keep env signal_id = some e ↔
      env.get_value signal_id = some e.2 ∧ e.2.timestamp.isSome = true ∧
        e.1 = signal_id := by
  unfold fetch_keep get_current_value
  cases hget : env.get_value signal_id with
  | none => simp
  | some dp =>
    dsimp only
    by_cases hts : dp.timestamp.isSome = true
    · rw [if_pos hts]
      constructor
      · intro h
        injection h with h
        subst h
        exact ⟨rfl, hts, rfl⟩
      · rintro ⟨h2, hts2, h1⟩
        injection h2 with h2
        rw [← h1, h2]
    · rw [if_neg hts]
      constructor
      · intro h
        cases h
      · rintro ⟨h2, hts2, h1⟩
        injection h2 with h2
        rw [← h2] at hts2
        exact absurd hts2 hts

/-- Every fetched initial value belongs to a subscribed id and is that
id's timestamped GetValue result. -/
theorem fetch_initial_values_mem {subs : List Int} {env : SubscriberEnv}
    {e : Int × Datapoint} (h : e ∈ fetch_initial_values subs env) :
    e.1 ∈ subs ∧ env.get_value e.1 = some e.2 ∧ e.2.timestamp.isSome = true := by
  rw [fetch_initial_values, List.mem_filterMap] at h
  obtain ⟨id, hid, hsome⟩ := h
  obtain ⟨h2, hts, h1⟩ := fetch_keep_eq_some.mp hsome
  subst h1
  exact ⟨hid, h2, hts⟩

/-- On a list of entries whose ids are all subscribed, the dispatch helper
drops nothing. -/
theorem filterMap_handle_of_mem_subs (subs : List Int) (now : Nat)
    (l : List (Int × Datapoint)) (h : ∀ e ∈ l, e.1 ∈ subs) :
    l.filterMap (handle_subscription_update subs now) =
      l.map (fun e => (e.1, datapoint_to_qualified_value now e.2)) := by
  induction l with
  | nil => rfl
  | cons e es ih =>
    rw [List.filterMap_cons, List.map_cons]
    rw [handle_subscription_update, if_pos (h e (by simp))]
    rw [ih (fun x hx => h x (by simp [hx]))]

/-- For a subscribed id whose GetValue result is timestamped, the fetched
initial values contain exactly one entry for that id, namely that
result. -/
theorem fetch_filter_eq (subs : List Int) (env : SubscriberEnv) (id : Int) (dp : Datapoint)
    (hnodup : subs.Nodup) (hid : id ∈ subs)
    (hget : env.get_value id = some dp) (hts : dp.timestamp.isSome = true) :
    (fetch_initial_values subs env).filter (fun e => e.1 == id) = [(id, dp)] := by
  induction subs with
  | nil => cases hid
  | cons a tl ih =>
    rw [List.nodup_cons] at hnodup
    rw [fetch_initial_values, List.filterMap_cons]
    by_cases ha : a = id
    · subst ha
      have hkeep : fetch_keep env a = some (a, dp) :=
        fetch_keep_eq_some.mpr ⟨hget, hts, rfl⟩
      rw [hkeep]
      have htl : (fetch_initial_values tl env).filter (fun e => e.1 == a) = [] := by
        rw [List.filter_eq_nil_iff]
        intro e he
        have hmem := (fetch_initial_values_mem he).1
        simp only [beq_iff_eq]
        intro hcontra
        exact hnodup.1 (hcontra ▸ hmem)
      rw [List.filter_cons]
      simp only [beq_self_eq_true, if_pos]
      rw [show tl.filterMap (fetch_keep env) = fetch_initial_values tl env from rfl, htl]
    · have hid' : id ∈ tl := by
        rcases List.mem_cons.mp hid with h | h
        · exact absurd h.symm ha
        · exact h
      have htail := ih hnodup.2 hid'
      rw [show tl.filterMap (fetch_keep env) = fetch_initial_values tl env from rfl]
      cases hkeep : fetch_keep env a with
      | none => exact htail
      | some e =>
        obtain ⟨_, _, h1⟩ := fetch_keep_eq_some.mp hkeep
        rw [List.filter_cons]
        have hfalse : (e.1 == id) = false := by
          simp only [beq_eq_false_iff_ne, h1]
          exact ha
        simp only [hfalse, Bool.false_eq_true, if_false]
        exact htail

/-- C7 (amended): within one subscriber connection attempt the subscriber
issues a GetValue request for every subscribed id, and every result that
arrived with a timestamp is dispatched through the same update handler as
streamed updates before any streamed entry of that attempt, so for such ids
the first callback is the initial value (possibly NOT_AVAILABLE); ids whose
fetch failed or returned a timestampless datapoint receive no initial
dispatch, and their first callback (if any) is a streamed delta. -/
theorem C7_initial_values_first (subs : List Int) (env : SubscriberEnv) (now : Nat)
    (hnodup : subs.Nodup) :
    (subscriber_attempt_trace subs env now =
      (fetch_initial_values subs env).map
          (fun e => (e.1, datapoint_to_qualified_value now e.2)) ++
        env.reads.flatten.filterMap (handle_subscription_update subs now)) ∧
    (∀ id dp, id ∈ subs → env.get_value id = some dp → dp.timestamp.isSome = true →
      ((subscriber_attempt_trace subs env now).filter (fun e => e.1 == id)).head? =
        some (id, datapoint_to_qualified_value now dp)) ∧
    (∀ id, (∃ dp, (id, dp) ∈ fetch_initial_values subs env) ↔
      (id ∈ subs ∧ ∃ dp, env.get_value id = some dp ∧ dp.timestamp.isSome = true)) := by
  have hmap : (fetch_initial_values subs env).filterMap (handle_subscription_update subs now) =
      (fetch_initial_values subs env).map
        (fun e => (e.1, datapoint_to_qualified_value now e.2)) :=
    filterMap_handle_of_mem_subs subs now _ (fun e he => (fetch_initial_values_mem he).1)
  refine ⟨?_, ?_, ?_⟩
  · rw [subscriber_attempt_trace, hmap]
  · intro id dp hid hget hts
    rw [subscriber_attempt_trace, hmap, List.filter_append]
    have hfilter : ((fetch_initial_values subs env).map
        (fun e => (e.1, datapoint_to_qualified_value now e.2))).filter
          (fun e => e.1 == id) = [(id, datapoint_to_qualified_value now dp)] := by
      rw [List.filter_map]
      have hcomp : ((fun (e : Int × DynamicQualifiedValue) => e.1 == id) ∘
          (fun (e : Int × Datapoint) => (e.1, datapoint_to_qualified_value now e.2))) =
          fun (e : Int × Datapoint) => e.1 == id := rfl
      rw [hcomp, fetch_filter_eq subs env id dp hnodup hid hget hts]
      rfl
    rw [hfilter]
    rfl
  · intro id
    constructor
    · rintro ⟨dp, hmem⟩
      have h := fetch_initial_values_mem hmem
      exact ⟨h.1, dp, h.2.1, h.2.2⟩
    · rintro ⟨hid, dp, hget, hts⟩
      refine ⟨dp, ?_⟩
      rw [fetch_initial_values, List.mem_filterMap]
      exact ⟨id, hid, fetch_keep_eq_some.mpr ⟨hget, hts, rfl⟩⟩

/-- C7 counterexample: for the subscribed id 7 the GetValue result exists
(value 5, no timestamp) but is not dispatched; the first and only callback
of the attempt is the streamed delta, with no prior first value. -/
theorem C7_counterexample :
    fetch_initial_values [7] demo_sub_env = [] ∧
    subscriber_attempt_trace [7] demo_sub_env 0 =
      [(7, ⟨.int32V 6, .VALID, 11⟩)] := ⟨rfl, rfl⟩

/-- C7 witness: a timestamped NOT_AVAILABLE initial value is dispatched
before the streamed update of the same id. -/
theorem C7_witness :
    ((subscriber_attempt_trace [5] demo_sub_env2 0).filter (fun e => e.1 == 5)).head? =
      some (5, datapoint_to_qualified_value 0 ⟨some 3, none⟩) :=
  (C7_initial_values_first [5] demo_sub_env2 0 (by decide)).2.1 5 ⟨some 3, none⟩
    (by decide) rfl rfl

/-- C8: the backoff delay matches the claim formula for attempts 1 through
25, the counter resets on every successful read, but at the 26th
consecutive failure the 32-bit multiplication 100 * (1 << 25) overflows to
a negative value, so min(...) is negative and no sleep happens at all,
where the claim (and the MAX_RETRY_DELAY_MS cap) demands 30000 ms. -/
theorem C8_backoff_overflow :
    (∀ n, n < 26 → 1 ≤ n → backoff_delay_ms n = claimed_delay_ms n) ∧
    backoff_delay_ms 26 = -939524096 ∧
    backoff_delay_ms 26 < 0 ∧
    claimed_delay_ms 26 = 30000 ∧
    (∀ n, retry_counter_step n .read_ok = 0) := by
  exact ⟨by decide, by decide, by decide, by decide, fun n => rfl⟩

/-- C8 witness: the formula at attempt 9 (within the agreeing range). -/
theorem C8_witness :
    backoff_delay_ms 9 = claimed_delay_ms 9 :=
  C8_backoff_overflow.1 9 (by decide) (by decide)

/-- After an insert-or-assign, the key is present. -/
theorem map_insert_has_key (m : List (Int × Nat)) (k : Int) (v : Nat) :
    (map_insert m k v).any (fun e => e.1 == k) = true := by
  rw [map_insert]
  by_cases h : m.any (fun e => e.1 == k) = true
  · rw [if_pos h]
    rw [List.any_eq_true] at h ⊢
    obtain ⟨e, hmem, he⟩ := h
    refine ⟨(k, v), List.mem_map.mpr ⟨e, hmem, ?_⟩, by simp⟩
    simp only [he, if_pos]
  · rw [if_neg h]
    rw [List.any_eq_true]
    exact ⟨(k, v), by simp, by simp⟩

/-- C4 (amended): on a running client, serve_actuator is rejected with
FailedPrecondition and leaves the registered-actuator list unchanged;
subscribe, however, performs no running-state check: it has no error
return and stores the callback in the subscription map even while the
client is running. -/
theorem C4_registration_after_start (st : ClientRegState) (h : st.running = true) :
    (∀ path signal_id t handler,
      serve_actuator_impl st path signal_id t handler =
        (failedPreconditionError "Cannot serve actuator while client is running", st)) ∧
    (∀ signal_id callback,
      (subscribe_impl st signal_id callback).subscriptions =
        map_insert st.subscriptions signal_id callback ∧
      ((subscribe_impl st signal_id callback).subscriptions.any
        (fun e => e.1 == signal_id)) = true) := by
  constructor
  · intro path signal_id t handler
    simp [serve_actuator_impl, h]
  · intro signal_id callback
    exact ⟨rfl, map_insert_has_key _ _ _⟩

/-- C4 counterexample: a running client's subscribe call is not rejected -
it mutates the subscription map (and, returning void, cannot report
FailedPrecondition). -/
theorem C4_counterexample :
    demo_running_client.running = true ∧
    demo_running_client.subscriptions = [] ∧
    (subscribe_impl demo_running_client 5 0).subscriptions = [(5, 0)] := ⟨rfl, rfl, rfl⟩

/-- C4 witness: the amended theorem at the concrete running client. -/
theorem C4_witness :
    serve_actuator_impl demo_running_client "Vehicle.Speed" 4 .FLOAT 0 =
      (failedPreconditionError "Cannot serve actuator while client is running",
        demo_running_client) ∧
    ((subscribe_impl demo_running_client 5 0).subscriptions.any (fun e => e.1 == 5)) = true :=
  ⟨(C4_registration_after_start demo_running_client rfl).1 "Vehicle.Speed" 4 .FLOAT 0,
   ((C4_registration_after_start demo_running_client rfl).2 5 0).2⟩

end Kuksa
